import Mathlib

set_option linter.unusedVariables false

/-
Verification of the weather-station control core (Rust sources
`src/lib.rs` and `src/main.rs`): the edge-event accumulator shared by the
rain and anemometer channels, the time-gated sampling scheduler, the
wind-direction sector classifier, and the per-tick orchestration of the
main loop.

Modelling conventions:
- The four global atomics (`RAIN_FLAG`, `ROTATION_FLAG`, `RAIN_COUNT`,
  `ROTATION_COUNT`) become an explicit `GlobalState` record threaded
  through the operations; the interrupt callbacks and the drain functions
  are state transformers on it.
- `u32` counters are `Nat` taken modulo `2 ^ 32`; the `+ 1` in the drain
  functions is u32 addition, which wraps modulo `2 ^ 32` under the
  release-profile semantics the firmware is built with.
- `Instant` / `Duration` timestamps are `Nat` milliseconds;
  `Instant::duration_since` clamps to zero when the argument is later,
  which is exactly truncated `Nat` subtraction.
- The f32 angle arithmetic in `get_wind_direction` is modelled over `ℚ`:
  the conversion factor `360.0 / 4096.0 = 45 / 512` is a dyadic rational
  exactly representable in f32, the raw reading is a small integer, and
  their product (at most `4095 * 45 = 184275 < 2 ^ 24`) is exact in f32,
  so every comparison in the sector match has the same truth value over
  f32 and over ℚ.
- Fallible collaborators (`enable_interrupt`, `as5600.angle()`,
  `bme.measure()`) are passed in as `Except` results; the drain functions
  additionally report whether the rearm capability was invoked.
-/

namespace WeatherStation

/-- Hardware error returned by `PinDriver::enable_interrupt` (EspError). -/
inductive HwError
  | espError
deriving Repr, DecidableEq

/-- Error returned by the AS5600 angle-sensor read. -/
inductive As5600Error
  | i2cError
deriving Repr, DecidableEq

/-- Error returned by the BME680 environmental sensor `measure()`. -/
inductive BmeError
  | sensorError
deriving Repr, DecidableEq

/-- The u32 modulus: counters are unsigned 32-bit and wrap. -/
def U32_MOD : Nat := 2 ^ 32

/-- The four global atomic variables of `lib.rs` (lines 34-37):
`RAIN_FLAG`, `ROTATION_FLAG`, `RAIN_COUNT`, `ROTATION_COUNT`. -/
structure GlobalState where
  rain_flag : Bool
  rotation_flag : Bool
  rain_count : Nat
  rotation_count : Nat
deriving Repr, DecidableEq

/-- Process-start state: both flags false, both counters zero. -/
def initState : GlobalState :=
  { rain_flag := false, rotation_flag := false, rain_count := 0, rotation_count := 0 }

/-- `rain_pin_callback` (lib.rs 39-41): `RAIN_FLAG.store(true, Relaxed)`. -/
def rain_pin_callback (s : GlobalState) : GlobalState :=
  { s with rain_flag := true }

/-- `anemo_pin_callback` (lib.rs 43-45): `ROTATION_FLAG.store(true, Relaxed)`. -/
def anemo_pin_callback (s : GlobalState) : GlobalState :=
  { s with rotation_flag := true }

/-- `check_rain_flag` (lib.rs 114-123). If `RAIN_FLAG` is set: store
`RAIN_COUNT + 1` (u32 wrap), clear the flag, and call
`pin_rain.enable_interrupt()`, whose result is logged via `map_err` and
discarded with `.ok()`. Returns the new state and whether the rearm
capability was invoked; `rearmResult` is the outcome the hardware would
return for that invocation and never influences the state. -/
def check_rain_flag (rearmResult : Except HwError Unit) (s : GlobalState) :
    GlobalState × Bool :=
  if s.rain_flag then
    ({ s with rain_count := (s.rain_count + 1) % U32_MOD, rain_flag := false }, true)
  else
    (s, false)

/-- `check_rotation_flag` (lib.rs 125-137), same shape for the anemometer
channel: `ROTATION_FLAG` / `ROTATION_COUNT` / `pin_anemo.enable_interrupt()`. -/
def check_rotation_flag (rearmResult : Except HwError Unit) (s : GlobalState) :
    GlobalState × Bool :=
  if s.rotation_flag then
    ({ s with rotation_count := (s.rotation_count + 1) % U32_MOD,
              rotation_flag := false }, true)
  else
    (s, false)

/-- `Duration::from_secs(10)` in milliseconds. -/
def sampleInterval : Nat := 10000

/-- `check_time_passed` (lib.rs 98-110), with the `LAST_TIME` mutex
contents made explicit: given the current monotonic time `now` and the
stored `last` timestamp, returns the boolean result together with the
new stored timestamp. `now.duration_since(*last_time)` is clamped
subtraction, i.e. truncated `Nat` subtraction. -/
def check_time_passed (now last : Nat) : Bool × Nat :=
  if sampleInterval ≤ now - last then (true, now) else (false, last)

/-- The sector match of `get_wind_direction` (lib.rs 164-174), as a
function of the converted angle in degrees. -/
def classifyAngle (angle : ℚ) : String :=
  if 0 ≤ angle ∧ angle < 45 then "N"
  else if 45 ≤ angle ∧ angle < 90 then "NE"
  else if 90 ≤ angle ∧ angle < 135 then "E"
  else if 135 ≤ angle ∧ angle < 180 then "SE"
  else if 180 ≤ angle ∧ angle < 225 then "S"
  else if 225 ≤ angle ∧ angle < 270 then "SW"
  else if 270 ≤ angle ∧ angle < 315 then "W"
  else if 315 ≤ angle ∧ angle < 360 then "NW"
  else "Invalid Angle"

/-- `get_wind_direction` (lib.rs 154-177): on a read error, log and return
"NA"; otherwise convert the raw reading by `* (360.0 / 4096.0)` and
classify. The raw reading is the sensor's u16 register value. -/
def get_wind_direction (readResult : Except As5600Error Nat) : String :=
  match readResult with
  | .error _ => "NA"
  | .ok reading => classifyAngle ((reading : ℚ) * (360 / 4096))

/-- `MeasurmentData` of the bosch_bme680 crate, as consumed here (floats
modelled over ℚ). -/
structure MeasurmentData where
  temperature : ℚ
  pressure : ℚ
  humidity : ℚ
  gas_resistance : Option ℚ
deriving Repr, DecidableEq

/-- `get_bme_readings` (lib.rs 139-152): on `measure()` error, log and
substitute an all-zero reading with no gas resistance. -/
def get_bme_readings (measureResult : Except BmeError MeasurmentData) : MeasurmentData :=
  match measureResult with
  | .ok readings => readings
  | .error _ =>
    { temperature := 0, pressure := 0, humidity := 0, gas_resistance := none }

/-- `measure_wind_speed` (lib.rs 179-181): a constant stub. -/
def measure_wind_speed : Nat := 42

/-- Observable actions of one main-loop iteration, in program order. -/
inductive Action
  | drainRain
  | drainRotation
  | schedCheck
  | readAngle
  | readBme
  | publishWifi
  | publishBme (readings : MeasurmentData)
  | publishAnemo (direction : String)
  | publishRain
deriving Repr, DecidableEq

/-- Mutable state carried across main-loop iterations: the global atomics
plus the scheduler's `LAST_TIME`. -/
structure SysState where
  globals : GlobalState
  last_time : Nat
deriving Repr, DecidableEq

/-- Per-iteration environment inputs: the monotonic clock reading and the
results the fallible collaborators would return this tick. -/
structure TickInputs where
  now : Nat
  rainRearm : Except HwError Unit
  rotationRearm : Except HwError Unit
  angleRead : Except As5600Error Nat
  bmeRead : Except BmeError MeasurmentData

/-- One iteration of the main loop body (main.rs 74-91): drain the rain
channel, drain the rotation channel, ask the scheduler; if the interval
elapsed, read the wind angle and the BME snapshot and publish wifi, BME,
anemometer and rain data; otherwise do nothing more. Returns the new
state and the trace of actions in execution order. -/
def loopIter (inp : TickInputs) (s : SysState) : SysState × List Action :=
  let g1 := (check_rain_flag inp.rainRearm s.globals).1
  let g2 := (check_rotation_flag inp.rotationRearm g1).1
  let sched := check_time_passed inp.now s.last_time
  if sched.1 then
    ({ globals := g2, last_time := sched.2 },
      [.drainRain, .drainRotation, .schedCheck, .readAngle, .readBme,
       .publishWifi, .publishBme (get_bme_readings inp.bmeRead),
       .publishAnemo (get_wind_direction inp.angleRead), .publishRain])
  else
    ({ globals := g2, last_time := sched.2 },
      [.drainRain, .drainRotation, .schedCheck])

/-- N isolated rain events: each `rain_pin_callback` (signal) is followed
by a `check_rain_flag` drain before the next signal. -/
def rainIsolatedRounds (rearmResult : Except HwError Unit) :
    Nat → GlobalState → GlobalState
  | 0, s => s
  | n + 1, s =>
    rainIsolatedRounds rearmResult n (check_rain_flag rearmResult (rain_pin_callback s)).1

/-- N isolated rotation events, drained by `check_rotation_flag`. -/
def rotationIsolatedRounds (rearmResult : Except HwError Unit) :
    Nat → GlobalState → GlobalState
  | 0, s => s
  | n + 1, s =>
    rotationIsolatedRounds rearmResult n
      (check_rotation_flag rearmResult (anemo_pin_callback s)).1

/-! ### Helper lemmas -/

/-- Consecutive u32 values have distinct residues modulo `2 ^ 32`. -/
lemma succ_mod_ne (c : Nat) : (c + 1) % U32_MOD ≠ (c + 2) % U32_MOD := by
  have h : U32_MOD = 4294967296 := by norm_num [U32_MOD]
  rw [h]
  omega

lemma classifyAngle_eq_N (a : ℚ) (h0 : 0 ≤ a) (h1 : a < 45) :
    classifyAngle a = "N" := by
  unfold classifyAngle
  rw [if_pos ⟨h0, h1⟩]

lemma classifyAngle_eq_NE (a : ℚ) (h0 : 45 ≤ a) (h1 : a < 90) :
    classifyAngle a = "NE" := by
  unfold classifyAngle
  repeat rw [if_neg (by rintro ⟨h2, h3⟩; linarith)]
  rw [if_pos ⟨h0, h1⟩]

lemma classifyAngle_eq_E (a : ℚ) (h0 : 90 ≤ a) (h1 : a < 135) :
    classifyAngle a = "E" := by
  unfold classifyAngle
  repeat rw [if_neg (by rintro ⟨h2, h3⟩; linarith)]
  rw [if_pos ⟨h0, h1⟩]

lemma classifyAngle_eq_SE (a : ℚ) (h0 : 135 ≤ a) (h1 : a < 180) :
    classifyAngle a = "SE" := by
  unfold classifyAngle
  repeat rw [if_neg (by rintro ⟨h2, h3⟩; linarith)]
  rw [if_pos ⟨h0, h1⟩]

lemma classifyAngle_eq_S (a : ℚ) (h0 : 180 ≤ a) (h1 : a < 225) :
    classifyAngle a = "S" := by
  unfold classifyAngle
  repeat rw [if_neg (by rintro ⟨h2, h3⟩; linarith)]
  rw [if_pos ⟨h0, h1⟩]

lemma classifyAngle_eq_SW (a : ℚ) (h0 : 225 ≤ a) (h1 : a < 270) :
    classifyAngle a = "SW" := by
  unfold classifyAngle
  repeat rw [if_neg (by rintro ⟨h2, h3⟩; linarith)]
  rw [if_pos ⟨h0, h1⟩]

lemma classifyAngle_eq_W (a : ℚ) (h0 : 270 ≤ a) (h1 : a < 315) :
    classifyAngle a = "W" := by
  unfold classifyAngle
  repeat rw [if_neg (by rintro ⟨h2, h3⟩; linarith)]
  rw [if_pos ⟨h0, h1⟩]

lemma classifyAngle_eq_NW (a : ℚ) (h0 : 315 ≤ a) (h1 : a < 360) :
    classifyAngle a = "NW" := by
  unfold classifyAngle
  repeat rw [if_neg (by rintro ⟨h2, h3⟩; linarith)]
  rw [if_pos ⟨h0, h1⟩]

lemma classifyAngle_invalid_low (a : ℚ) (h : a < 0) :
    classifyAngle a = "Invalid Angle" := by
  unfold classifyAngle
  repeat rw [if_neg (by rintro ⟨h2, h3⟩; linarith)]

lemma classifyAngle_invalid_high (a : ℚ) (h : 360 ≤ a) :
    classifyAngle a = "Invalid Angle" := by
  unfold classifyAngle
  repeat rw [if_neg (by rintro ⟨h2, h3⟩; linarith)]

/-- Rain count after n isolated signal-then-drain rounds. -/
lemma rainIsolatedRounds_count (rearmResult : Except HwError Unit) (n : Nat) :
    ∀ s : GlobalState, s.rain_count < U32_MOD →
      (rainIsolatedRounds rearmResult n s).rain_count = (s.rain_count + n) % U32_MOD := by
  have hU : U32_MOD = 4294967296 := by norm_num [U32_MOD]
  induction n with
  | zero =>
    intro s hs
    simp only [rainIsolatedRounds]
    rw [hU] at hs ⊢
    omega
  | succ n ih =>
    intro s hs
    simp only [rainIsolatedRounds]
    have hstep : (check_rain_flag rearmResult (rain_pin_callback s)).1.rain_count
        = (s.rain_count + 1) % U32_MOD := by
      simp [check_rain_flag, rain_pin_callback]
    have hlt : (check_rain_flag rearmResult (rain_pin_callback s)).1.rain_count < U32_MOD := by
      rw [hstep, hU]
      omega
    rw [ih _ hlt, hstep, hU]
    omega

/-- Rotation count after n isolated signal-then-drain rounds. -/
lemma rotationIsolatedRounds_count (rearmResult : Except HwError Unit) (n : Nat) :
    ∀ s : GlobalState, s.rotation_count < U32_MOD →
      (rotationIsolatedRounds rearmResult n s).rotation_count
        = (s.rotation_count + n) % U32_MOD := by
  have hU : U32_MOD = 4294967296 := by norm_num [U32_MOD]
  induction n with
  | zero =>
    intro s hs
    simp only [rotationIsolatedRounds]
    rw [hU] at hs ⊢
    omega
  | succ n ih =>
    intro s hs
    simp only [rotationIsolatedRounds]
    have hstep : (check_rotation_flag rearmResult (anemo_pin_callback s)).1.rotation_count
        = (s.rotation_count + 1) % U32_MOD := by
      simp [check_rotation_flag, anemo_pin_callback]
    have hlt : (check_rotation_flag rearmResult (anemo_pin_callback s)).1.rotation_count
        < U32_MOD := by
      rw [hstep, hU]
      omega
    rw [ih _ hlt, hstep, hU]
    omega

/-! ### Claim theorems -/

/-- C1: coalescing of pending events. Two `signal()` calls (flag sets) with
no intervening drain, followed by one `check_rain_flag` (resp.
`check_rotation_flag`), increment the count by exactly 1 (u32 increment),
not by 2 — for every starting state and every rearm outcome. -/
theorem claim_C1_coalescing (rearmResult : Except HwError Unit) (s : GlobalState) :
    ((check_rain_flag rearmResult (rain_pin_callback (rain_pin_callback s))).1.rain_count
        = (s.rain_count + 1) % U32_MOD
      ∧ (check_rain_flag rearmResult (rain_pin_callback (rain_pin_callback s))).1.rain_count
        ≠ (s.rain_count + 2) % U32_MOD)
    ∧ ((check_rotation_flag rearmResult
          (anemo_pin_callback (anemo_pin_callback s))).1.rotation_count
        = (s.rotation_count + 1) % U32_MOD
      ∧ (check_rotation_flag rearmResult
          (anemo_pin_callback (anemo_pin_callback s))).1.rotation_count
        ≠ (s.rotation_count + 2) % U32_MOD) := by
  have h1 : (check_rain_flag rearmResult (rain_pin_callback (rain_pin_callback s))).1.rain_count
      = (s.rain_count + 1) % U32_MOD := by
    simp [check_rain_flag, rain_pin_callback]
  have h2 : (check_rotation_flag rearmResult
      (anemo_pin_callback (anemo_pin_callback s))).1.rotation_count
      = (s.rotation_count + 1) % U32_MOD := by
    simp [check_rotation_flag, anemo_pin_callback]
  exact ⟨⟨h1, h1 ▸ succ_mod_ne s.rain_count⟩, ⟨h2, h2 ▸ succ_mod_ne s.rotation_count⟩⟩

/-- C1 witness: from the initial state, two signals then one drain leave
the rain count at 1, not 2. -/
theorem claim_C1_coalescing_witness :
    (check_rain_flag (.ok ()) (rain_pin_callback (rain_pin_callback initState))).1.rain_count
      = (0 + 1) % U32_MOD
    ∧ ((check_rain_flag (.ok ())
        (rain_pin_callback (rain_pin_callback initState))).1.rain_count
      = (0 + 2) % U32_MOD → False) :=
  ⟨(claim_C1_coalescing (.ok ()) initState).1.1,
   (claim_C1_coalescing (.ok ()) initState).1.2⟩

/-- C2: isolated event counting. If each signal is drained before the next
signal, N rounds add exactly N to the count (u32 arithmetic); in
particular, starting from the initial state, the count after N rounds with
N < 2^32 is exactly N. -/
theorem claim_C2_isolated_counting (rearmResult : Except HwError Unit) (n : Nat)
    (s : GlobalState) :
    (s.rain_count < U32_MOD →
      (rainIsolatedRounds rearmResult n s).rain_count = (s.rain_count + n) % U32_MOD)
    ∧ (s.rotation_count < U32_MOD →
      (rotationIsolatedRounds rearmResult n s).rotation_count
        = (s.rotation_count + n) % U32_MOD)
    ∧ (n < U32_MOD → (rainIsolatedRounds rearmResult n initState).rain_count = n)
    ∧ (n < U32_MOD → (rotationIsolatedRounds rearmResult n initState).rotation_count = n) := by
  refine ⟨fun hs => rainIsolatedRounds_count rearmResult n s hs,
    fun hs => rotationIsolatedRounds_count rearmResult n s hs, fun hn => ?_, fun hn => ?_⟩
  · rw [rainIsolatedRounds_count rearmResult n initState (by norm_num [initState, U32_MOD])]
    simp only [initState, Nat.zero_add]
    exact Nat.mod_eq_of_lt hn
  · rw [rotationIsolatedRounds_count rearmResult n initState (by norm_num [initState, U32_MOD])]
    simp only [initState, Nat.zero_add]
    exact Nat.mod_eq_of_lt hn

/-- C2 witness: three isolated rounds from the initial state yield count 3
on each channel. -/
theorem claim_C2_isolated_counting_witness :
    (rainIsolatedRounds (.ok ()) 3 initState).rain_count = 3
    ∧ (rotationIsolatedRounds (.ok ()) 3 initState).rotation_count = 3 :=
  ⟨(claim_C2_isolated_counting (.ok ()) 3 initState).2.2.1 (by norm_num [U32_MOD]),
   (claim_C2_isolated_counting (.ok ()) 3 initState).2.2.2 (by norm_num [U32_MOD])⟩

/-- C3: per-call drain contract. With the pending flag true, one drain
increments the count by 1 (u32), clears the flag and invokes the rearm
capability; with it false, the drain is a no-op and rearm is not invoked. -/
theorem claim_C3_drain_contract (rearmResult : Except HwError Unit) (s : GlobalState) :
    (s.rain_flag = true →
      check_rain_flag rearmResult s =
        ({ s with rain_count := (s.rain_count + 1) % U32_MOD, rain_flag := false }, true))
    ∧ (s.rain_flag = false → check_rain_flag rearmResult s = (s, false))
    ∧ (s.rotation_flag = true →
      check_rotation_flag rearmResult s =
        ({ s with rotation_count := (s.rotation_count + 1) % U32_MOD,
                  rotation_flag := false }, true))
    ∧ (s.rotation_flag = false → check_rotation_flag rearmResult s = (s, false)) := by
  refine ⟨fun h => ?_, fun h => ?_, fun h => ?_, fun h => ?_⟩ <;>
    simp [check_rain_flag, check_rotation_flag, h]

/-- C3 witness: a state with the rain flag set and the rotation flag clear. -/
theorem claim_C3_drain_contract_witness :
    check_rain_flag (.ok ()) ⟨true, false, 5, 7⟩ =
      (⟨false, false, (5 + 1) % U32_MOD, 7⟩, true)
    ∧ check_rotation_flag (.ok ()) ⟨true, false, 5, 7⟩ = (⟨true, false, 5, 7⟩, false) :=
  ⟨(claim_C3_drain_contract (.ok ()) ⟨true, false, 5, 7⟩).1 rfl,
   (claim_C3_drain_contract (.ok ()) ⟨true, false, 5, 7⟩).2.2.2 rfl⟩

/-- C4: scheduler check-and-reset. `check_time_passed` returns true and
stores `now` exactly when `now - last ≥ 10 s`; otherwise it returns false
and keeps `last`. Consequently a second call before a further full
interval has elapsed returns false. -/
theorem claim_C4_scheduler (now last now2 : Nat) :
    (sampleInterval ≤ now - last → check_time_passed now last = (true, now))
    ∧ (now - last < sampleInterval → check_time_passed now last = (false, last))
    ∧ (sampleInterval ≤ now - last → now2 - now < sampleInterval →
        check_time_passed now2 (check_time_passed now last).2 = (false, now)) := by
  refine ⟨fun h => ?_, fun h => ?_, fun h h2 => ?_⟩
  · simp only [check_time_passed]
    rw [if_pos h]
  · simp only [check_time_passed]
    rw [if_neg (by omega)]
  · simp only [check_time_passed]
    rw [if_pos h, if_neg (by omega)]

/-- C4 witness: at 20 s the interval has passed; 5 s later it has not. -/
theorem claim_C4_scheduler_witness :
    check_time_passed 20000 0 = (true, 20000)
    ∧ check_time_passed 25000 (check_time_passed 20000 0).2 = (false, 20000) :=
  ⟨(claim_C4_scheduler 20000 0 25000).1 (by decide),
   (claim_C4_scheduler 20000 0 25000).2.2 (by decide) (by decide)⟩

/-- C5: wind-direction classification. Each 45° half-open sector maps to
its compass label, and every angle outside [0, 360) yields the explicit
"Invalid Angle" result. -/
theorem claim_C5_wind_sectors (a : ℚ) :
    (0 ≤ a → a < 45 → classifyAngle a = "N")
    ∧ (45 ≤ a → a < 90 → classifyAngle a = "NE")
    ∧ (90 ≤ a → a < 135 → classifyAngle a = "E")
    ∧ (135 ≤ a → a < 180 → classifyAngle a = "SE")
    ∧ (180 ≤ a → a < 225 → classifyAngle a = "S")
    ∧ (225 ≤ a → a < 270 → classifyAngle a = "SW")
    ∧ (270 ≤ a → a < 315 → classifyAngle a = "W")
    ∧ (315 ≤ a → a < 360 → classifyAngle a = "NW")
    ∧ (a < 0 → classifyAngle a = "Invalid Angle")
    ∧ (360 ≤ a → classifyAngle a = "Invalid Angle") :=
  ⟨classifyAngle_eq_N a, classifyAngle_eq_NE a, classifyAngle_eq_E a,
   classifyAngle_eq_SE a, classifyAngle_eq_S a, classifyAngle_eq_SW a,
   classifyAngle_eq_W a, classifyAngle_eq_NW a,
   classifyAngle_invalid_low a, classifyAngle_invalid_high a⟩

/-- C5 witness: one representative per sector, plus -1 and 360 as invalid. -/
theorem claim_C5_wind_sectors_witness :
    classifyAngle 0 = "N" ∧ classifyAngle 45 = "NE" ∧ classifyAngle 90 = "E"
    ∧ classifyAngle 135 = "SE" ∧ classifyAngle 180 = "S" ∧ classifyAngle 225 = "SW"
    ∧ classifyAngle 270 = "W" ∧ classifyAngle 315 = "NW"
    ∧ classifyAngle (-1) = "Invalid Angle" ∧ classifyAngle 360 = "Invalid Angle" :=
  ⟨(claim_C5_wind_sectors 0).1 (by norm_num) (by norm_num),
   (claim_C5_wind_sectors 45).2.1 (by norm_num) (by norm_num),
   (claim_C5_wind_sectors 90).2.2.1 (by norm_num) (by norm_num),
   (claim_C5_wind_sectors 135).2.2.2.1 (by norm_num) (by norm_num),
   (claim_C5_wind_sectors 180).2.2.2.2.1 (by norm_num) (by norm_num),
   (claim_C5_wind_sectors 225).2.2.2.2.2.1 (by norm_num) (by norm_num),
   (claim_C5_wind_sectors 270).2.2.2.2.2.2.1 (by norm_num) (by norm_num),
   (claim_C5_wind_sectors 315).2.2.2.2.2.2.2.1 (by norm_num) (by norm_num),
   (claim_C5_wind_sectors (-1)).2.2.2.2.2.2.2.2.1 (by norm_num),
   (claim_C5_wind_sectors 360).2.2.2.2.2.2.2.2.2 (by norm_num)⟩

/-- C6: sentinel substitution on transient sensor faults. An angle-read
error yields the "NA" sentinel; a `measure()` error yields the zeroed
reading with no gas resistance. Both operations are total: no error is
propagated. -/
theorem claim_C6_sentinels (e1 : As5600Error) (e2 : BmeError) :
    get_wind_direction (.error e1) = "NA"
    ∧ get_bme_readings (.error e2) =
        { temperature := 0, pressure := 0, humidity := 0, gas_resistance := none } :=
  ⟨rfl, rfl⟩

/-- C7: rearm failure is non-fatal and does not roll back the drain. With
the flag pending and the rearm capability returning an error, the drain
still increments the count, clears the flag, and produces exactly the
outcome it would produce on rearm success. -/
theorem claim_C7_rearm_failure (e : HwError) (s : GlobalState) :
    (s.rain_flag = true →
      (check_rain_flag (.error e) s).1.rain_count = (s.rain_count + 1) % U32_MOD
      ∧ (check_rain_flag (.error e) s).1.rain_flag = false
      ∧ check_rain_flag (.error e) s = check_rain_flag (.ok ()) s)
    ∧ (s.rotation_flag = true →
      (check_rotation_flag (.error e) s).1.rotation_count = (s.rotation_count + 1) % U32_MOD
      ∧ (check_rotation_flag (.error e) s).1.rotation_flag = false
      ∧ check_rotation_flag (.error e) s = check_rotation_flag (.ok ()) s) := by
  constructor <;> intro h <;> simp [check_rain_flag, check_rotation_flag, h]

/-- C7 witness: both flags pending, rearm fails, both drains take effect. -/
theorem claim_C7_rearm_failure_witness :
    (check_rain_flag (.error .espError) ⟨true, true, 0, 0⟩).1.rain_count = (0 + 1) % U32_MOD
    ∧ (check_rotation_flag (.error .espError) ⟨true, true, 0, 0⟩).1.rotation_flag = false :=
  ⟨((claim_C7_rearm_failure .espError ⟨true, true, 0, 0⟩).1 rfl).1,
   ((claim_C7_rearm_failure .espError ⟨true, true, 0, 0⟩).2 rfl).2.1⟩

/-- C8: tick ordering. Every iteration starts by draining both channels
and then consulting the scheduler; the drains are applied to the state
unconditionally; and when the scheduler returns false, no read and no
publish action occurs in that iteration. -/
theorem claim_C8_tick_ordering (inp : TickInputs) (s : SysState) :
    ((loopIter inp s).2.take 3 = [.drainRain, .drainRotation, .schedCheck])
    ∧ ((loopIter inp s).1.globals =
        (check_rotation_flag inp.rotationRearm
          (check_rain_flag inp.rainRearm s.globals).1).1)
    ∧ ((check_time_passed inp.now s.last_time).1 = false →
        (loopIter inp s).2 = [.drainRain, .drainRotation, .schedCheck]) := by
  refine ⟨?_, ?_, fun h => ?_⟩
  · simp only [loopIter]
    split_ifs <;> rfl
  · simp only [loopIter]
    split_ifs <;> rfl
  · simp only [loopIter, h]
    rfl

/-- C8 witness: a tick at time 0 with `last_time` 0 does not sample. -/
theorem claim_C8_tick_ordering_witness :
    (loopIter ⟨0, .ok (), .ok (), .ok 0, .ok ⟨0, 0, 0, none⟩⟩ ⟨initState, 0⟩).2 =
      [.drainRain, .drainRotation, .schedCheck] :=
  (claim_C8_tick_ordering ⟨0, .ok (), .ok (), .ok 0, .ok ⟨0, 0, 0, none⟩⟩
    ⟨initState, 0⟩).2.2 (by decide)

/-- C9: counter overflow wraps. Each drain increments the u32 count modulo
`2 ^ 32`; in particular, at count `2 ^ 32 - 1` with the flag pending, the
drain produces count 0 rather than failing. -/
theorem claim_C9_counter_wrap (rearmResult : Except HwError Unit) (s : GlobalState) :
    (s.rain_flag = true →
      (check_rain_flag rearmResult s).1.rain_count = (s.rain_count + 1) % U32_MOD)
    ∧ (s.rain_flag = true → s.rain_count = 2 ^ 32 - 1 →
      (check_rain_flag rearmResult s).1.rain_count = 0)
    ∧ (s.rotation_flag = true →
      (check_rotation_flag rearmResult s).1.rotation_count = (s.rotation_count + 1) % U32_MOD)
    ∧ (s.rotation_flag = true → s.rotation_count = 2 ^ 32 - 1 →
      (check_rotation_flag rearmResult s).1.rotation_count = 0) := by
  have hU : U32_MOD = 4294967296 := by norm_num [U32_MOD]
  refine ⟨fun h => ?_, fun h hc => ?_, fun h => ?_, fun h hc => ?_⟩
  · simp [check_rain_flag, h]
  · simp [check_rain_flag, h, hc, hU]
  · simp [check_rotation_flag, h]
  · simp [check_rotation_flag, h, hc, hU]

/-- C9 witness: both counters at `2 ^ 32 - 1` with flags pending wrap to 0. -/
theorem claim_C9_counter_wrap_witness :
    (check_rain_flag (.ok ()) ⟨true, true, 2 ^ 32 - 1, 2 ^ 32 - 1⟩).1.rain_count = 0
    ∧ (check_rotation_flag (.ok ()) ⟨true, true, 2 ^ 32 - 1, 2 ^ 32 - 1⟩).1.rotation_count
      = 0 :=
  ⟨(claim_C9_counter_wrap (.ok ()) ⟨true, true, 2 ^ 32 - 1, 2 ^ 32 - 1⟩).2.1 rfl rfl,
   (claim_C9_counter_wrap (.ok ()) ⟨true, true, 2 ^ 32 - 1, 2 ^ 32 - 1⟩).2.2.2 rfl rfl⟩

/-- C10: for every successful 12-bit reading r < 4096, the converted angle
lies in [0, 360), so `get_wind_direction` returns one of the eight sector
labels and the "Invalid Angle" branch is unreachable. -/
theorem claim_C10_invalid_unreachable (r : Nat) (h : r < 4096) :
    get_wind_direction (.ok r) ∈ ["N", "NE", "E", "SE", "S", "SW", "W", "NW"] := by
  simp only [get_wind_direction]
  set a : ℚ := (r : ℚ) * (360 / 4096) with ha
  have h0 : 0 ≤ a := by
    rw [ha]
    positivity
  have h360 : a < 360 := by
    have hr : (r : ℚ) < 4096 := by exact_mod_cast h
    rw [ha]
    nlinarith
  rcases lt_or_le a 45 with h1 | h1
  · rw [classifyAngle_eq_N a h0 h1]; simp
  rcases lt_or_le a 90 with h2 | h2
  · rw [classifyAngle_eq_NE a h1 h2]; simp
  rcases lt_or_le a 135 with h3 | h3
  · rw [classifyAngle_eq_E a h2 h3]; simp
  rcases lt_or_le a 180 with h4 | h4
  · rw [classifyAngle_eq_SE a h3 h4]; simp
  rcases lt_or_le a 225 with h5 | h5
  · rw [classifyAngle_eq_S a h4 h5]; simp
  rcases lt_or_le a 270 with h6 | h6
  · rw [classifyAngle_eq_SW a h5 h6]; simp
  rcases lt_or_le a 315 with h7 | h7
  · rw [classifyAngle_eq_W a h6 h7]; simp
  · rw [classifyAngle_eq_NW a h7 h360]; simp

/-- C10 witness: the reading 1000 converts to about 87.9° and classifies
as a sector. -/
theorem claim_C10_invalid_unreachable_witness :
    get_wind_direction (.ok 1000) ∈ ["N", "NE", "E", "SE", "S", "SW", "W", "NW"] :=
  claim_C10_invalid_unreachable 1000 (by norm_num)

end WeatherStation
